import Mathlib

/-!
Shallow embedding of the manual-payment-system backends.

The repository contains several near-duplicate Express/Mongoose backends:
  * `src/MPS-BackendFolder/server.js`  — the "server" variant (field
    validation, duplicate-transaction check, guest-user creation, amount
    defaulting, activation timer gated on NODE_ENV, try/catch in the timer,
    check-access by email without expiry computation);
  * `src/unnamed/part_002`             — the "p002" variant (authenticated
    routes, `checkCourseAccess` utility with read-time expiry, reviews,
    verify-payment, purchase without validation or duplicate check, timer
    without try/catch);
  * `src/unnamed/part_001`             — the "p001" variant (like p002 but
    the ledger append records no `accessExpiry`, and there are no
    review/verify endpoints).

Documents are embedded as Lean structures; MongoDB object ids are modelled
by a `nextId` counter on the store; timestamps are epoch milliseconds
(`Nat`); JavaScript `undefined`/missing fields are `Option`; JS falsiness
of strings (absent or empty) and numbers (absent or zero) is modelled
explicitly.  Mongoose schema *format* validators (email/phone regexes) are
abstracted away: request fields are taken as given.  Randomness
(`crypto.randomBytes` for the guest password) is threaded as a parameter.
`setTimeout` callbacks are reified as `Timer` records carrying their fire
time; an event-loop step `runDue` fires exactly the timers whose delay has
elapsed.
-/

/-- One course-access entry embedded in a user document
(`UserSchema.courses` in all variants; the p001 schema has no
`accessExpiry` field, modelled as the entry never carrying one). -/
structure CourseEntry where
  courseId : String
  purchaseDate : Nat
  status : String
  transactionId : String
  accessExpiry : Option Nat
deriving Repr, DecidableEq

/-- A user document. `uid` models the MongoDB `_id`. -/
structure UserDoc where
  uid : Nat
  name : String
  email : String
  phone : Option String
  password : String
  courses : List CourseEntry
deriving Repr, DecidableEq

/-- A course document (fields the purchase/access flows read; `isActive`
exists only in the server variant's schema and is ignored by p001/p002). -/
structure CourseDoc where
  courseId : String
  title : String
  price : Int
  discountedPrice : Option Int
  isActive : Bool
  totalStudents : Int
deriving Repr, DecidableEq

/-- A transaction document. `tid` models the MongoDB `_id`; `amount` is
optional because the p001/p002 schemas do not require it. -/
structure TxnDoc where
  tid : Nat
  transactionId : String
  userId : Nat
  courseId : String
  amount : Option Int
  paymentMethod : String
  status : String
deriving Repr, DecidableEq

/-- A review document (p002 variant). -/
structure ReviewDoc where
  courseId : String
  userId : Nat
  userName : String
  userEmail : String
  rating : Int
  review : String
deriving Repr, DecidableEq

/-- The document store: the users, courses, transactions and reviews
collections, plus a counter supplying fresh object ids. -/
structure Store where
  nextId : Nat
  users : List UserDoc
  courses : List CourseDoc
  transactions : List TxnDoc
  reviews : List ReviewDoc
deriving Repr, DecidableEq

/-- An HTTP response, reduced to the status code, the `success` flag and
the machine-readable `error` code field (the server variant's responses
carry such a code; the p001/p002 responses have only a free-text
`message`, modelled as `error = none`). -/
structure HttpResp where
  status : Nat
  success : Bool
  error : Option String
deriving Repr, DecidableEq

/-- A scheduled `setTimeout` callback: when it may fire, and the values
captured by its closure (user id, transaction id string, transaction
object id, course id). -/
structure Timer where
  fireAt : Nat
  uid : Nat
  txnId : String
  tid : Nat
  courseId : String
deriving Repr, DecidableEq

/-- Result of an access evaluation, reduced to the two fields every
claim reads: the `hasAccess` flag and the `status` field (absent in the
no-user / no-entry responses). -/
structure AccessResult where
  hasAccess : Bool
  status : Option String
deriving Repr, DecidableEq

/-- JS falsiness of an optional string request field: missing or empty. -/
def jsFalsyS : Option String → Bool
  | none => true
  | some s => s == ""

/-- JS `a || b` for an optional numeric `a` against a number `b`
(`undefined` and `0` are falsy). -/
def jsOrD (a : Option Int) (b : Int) : Int :=
  match a with
  | some v => if v == 0 then b else v
  | none => b

/-- One year of access in milliseconds (`365 * 24 * 60 * 60 * 1000`). -/
def yearMs : Nat := 365 * 24 * 60 * 60 * 1000

/-- The demo activation delay in milliseconds (`10000`). -/
def activationDelay : Nat := 10000

/-- p002 `checkCourseAccess(userId, courseId)`: load the user, find the
first ledger entry with the course id, report `expired` at read time when
`accessExpiry` is set and strictly in the past, otherwise report the
stored status with `hasAccess = (status === 'active')`.  The function is
a pure read: it performs no store write. -/
def checkCourseAccess (s : Store) (userId : Nat) (courseId : String) (now : Nat) :
    AccessResult :=
  match s.users.find? (fun u => u.uid == userId) with
  | none => { hasAccess := false, status := none }
  | some user =>
    match user.courses.find? (fun c => c.courseId == courseId) with
    | none => { hasAccess := false, status := none }
    | some e =>
      match e.accessExpiry with
      | some exp =>
        if exp < now then { hasAccess := false, status := some "expired" }
        else { hasAccess := e.status == "active", status := some e.status }
      | none => { hasAccess := e.status == "active", status := some e.status }

/-- server variant `GET /api/check-access/:courseId`: look the user up by
email and return `hasAccess = (stored status === 'active')` together with
the stored status.  No expiry computation is performed (the handler never
reads the clock). -/
def checkAccessServer (s : Store) (email : String) (courseId : String) :
    AccessResult :=
  match s.users.find? (fun u => u.email == email) with
  | none => { hasAccess := false, status := none }
  | some user =>
    match user.courses.find? (fun c => c.courseId == courseId) with
    | none => { hasAccess := false, status := none }
    | some e => { hasAccess := e.status == "active", status := some e.status }

/-- `User.findByIdAndUpdate(uid, { $push: { courses: e } })`: append the
entry to the ledger of the user with the given id (no-op when absent). -/
def pushCourse (s : Store) (uid : Nat) (e : CourseEntry) : Store :=
  { s with users := s.users.map (fun u =>
      if u.uid == uid then { u with courses := u.courses ++ [e] } else u) }

/-- `Transaction.findByIdAndUpdate(tid, { status })`: set the status of
the transaction document with the given object id. -/
def setTxnStatus (s : Store) (tid : Nat) (st : String) : Store :=
  { s with transactions := s.transactions.map (fun t =>
      if t.tid == tid then { t with status := st } else t) }

/-- The positional `courses.$` update: set the status of the *first*
ledger entry whose `transactionId` matches to `'active'`. -/
def activateFirst : List CourseEntry → String → List CourseEntry
  | [], _ => []
  | e :: es, txnId =>
    if e.transactionId == txnId then { e with status := "active" } :: es
    else e :: activateFirst es txnId

/-- `User.updateOne({ _id: uid, 'courses.transactionId': txnId },
{ $set: { 'courses.$.status': 'active' } })`. -/
def setEntryActive (s : Store) (uid : Nat) (txnId : String) : Store :=
  { s with users := s.users.map (fun u =>
      if u.uid == uid then { u with courses := activateFirst u.courses txnId } else u) }

/-- `Course.updateOne({ courseId }, { $inc: { 'stats.totalStudents': 1 } })`
(performed only by the server variant's timer). -/
def incStudents (s : Store) (courseId : String) : Store :=
  { s with courses := s.courses.map (fun c =>
      if c.courseId == courseId then { c with totalStudents := c.totalStudents + 1 } else c) }

/-- Read a transaction's status by object id. -/
def readTxnStatus (s : Store) (tid : Nat) : Option String :=
  (s.transactions.find? (fun t => t.tid == tid)).map (fun t => t.status)

/-- Read the status of the first ledger entry of user `uid` whose
`transactionId` matches. -/
def readEntryStatus (s : Store) (uid : Nat) (txnId : String) : Option String :=
  match s.users.find? (fun u => u.uid == uid) with
  | none => none
  | some u => (u.courses.find? (fun e => e.transactionId == txnId)).map (fun e => e.status)

/-- The happy-path effect of the server variant's activation timer:
transaction → `completed`, first matching ledger entry → `active`, and
the course's student counter incremented. -/
def fireTimerServer (s : Store) (tm : Timer) : Store :=
  incStudents (setEntryActive (setTxnStatus s tm.tid "completed") tm.uid tm.txnId) tm.courseId

/-- The happy-path effect of the p001/p002 activation timer: transaction →
`completed`, first matching ledger entry → `active`. -/
def fireTimerP (s : Store) (tm : Timer) : Store :=
  setEntryActive (setTxnStatus s tm.tid "completed") tm.uid tm.txnId

/-- One event-loop step at wall-clock time `t`: fire (with effect `f`)
every scheduled timer whose delay has elapsed, keep the rest pending. -/
def runDue (f : Store → Timer → Store) (s : Store) (tms : List Timer) (t : Nat) :
    Store × List Timer :=
  tms.foldl (fun acc tm =>
    if tm.fireAt ≤ t then (f acc.1 tm, acc.2) else (acc.1, acc.2 ++ [tm])) (s, [])

/-- Request body of the server variant's `POST /api/purchase`
(fields may be absent: JS `undefined`). -/
structure ServerReq where
  name : Option String
  email : Option String
  phone : Option String
  txnId : Option String
  paymentMethod : Option String
  courseId : Option String
  amount : Option Int
deriving Repr, DecidableEq

/-- The server request's missing-field guard
(`!name || !email || !txnId || !paymentMethod || !courseId`). -/
def missingFields (r : ServerReq) : Bool :=
  jsFalsyS r.name || jsFalsyS r.email || jsFalsyS r.txnId ||
    jsFalsyS r.paymentMethod || jsFalsyS r.courseId

/-- server variant `POST /api/purchase`.  Steps, in source order:
field validation → course lookup (`isActive: true`) → user lookup /
guest-user creation (random password threaded as `pw`) → duplicate
transaction check → transaction insert (amount defaulted through JS
`||`) → ledger append with `accessExpiry = now + 365 days` → activation
timer scheduled only when not in production (`NODE_ENV` gate).
Returns (response, store, newly scheduled timers). -/
def purchaseServer (s : Store) (r : ServerReq) (now : Nat)
    (production : Bool) (pw : String) : HttpResp × Store × List Timer :=
  if missingFields r then
    ({ status := 400, success := false, error := some "MISSING_FIELDS" }, s, [])
  else
    match s.courses.find? (fun c => c.courseId == r.courseId.getD "" && c.isActive) with
    | none => ({ status := 404, success := false, error := some "COURSE_NOT_FOUND" }, s, [])
    | some course =>
      let found := s.users.find? (fun u => u.email == r.email.getD "")
      let user : UserDoc :=
        match found with
        | some u => u
        | none =>
          { uid := s.nextId, name := r.name.getD "", email := r.email.getD "",
            phone := r.phone, password := pw, courses := [] }
      let s1 : Store :=
        match found with
        | some _ => s
        | none => { s with users := s.users ++ [user], nextId := s.nextId + 1 }
      match s1.transactions.find? (fun t => t.transactionId == r.txnId.getD "") with
      | some _ =>
        ({ status := 400, success := false, error := some "DUPLICATE_TRANSACTION" }, s1, [])
      | none =>
        let txn : TxnDoc :=
          { tid := s1.nextId, transactionId := r.txnId.getD "", userId := user.uid,
            courseId := r.courseId.getD "",
            amount := some (jsOrD r.amount (jsOrD course.discountedPrice course.price)),
            paymentMethod := r.paymentMethod.getD "", status := "pending" }
        let s2 : Store :=
          { s1 with transactions := s1.transactions ++ [txn], nextId := s1.nextId + 1 }
        let entry : CourseEntry :=
          { courseId := r.courseId.getD "", purchaseDate := now, status := "pending",
            transactionId := r.txnId.getD "", accessExpiry := some (now + yearMs) }
        let s3 := pushCourse s2 user.uid entry
        let tms : List Timer :=
          if production then []
          else [{ fireAt := now + activationDelay, uid := user.uid,
                  txnId := r.txnId.getD "", tid := txn.tid,
                  courseId := course.courseId }]
        ({ status := 200, success := true, error := none }, s3, tms)

/-- Request body of the authenticated p001/p002 `POST /api/purchase`
(`userId` comes from the verified JWT, the rest from the body; no field
validation exists, so absent string fields arrive as empty strings in
the model). -/
structure AuthReq where
  userId : Nat
  courseId : String
  paymentMethod : String
  transactionId : String
  amount : Option Int
deriving Repr, DecidableEq

/-- p002 `POST /api/purchase`: course lookup → `transaction.save()`
(which *fails* on a duplicate `transactionId` because of the unique
index, surfacing as an HTTP 500 with the driver's message and no error
code) → ledger append with `accessExpiry = now + 365 days` → activation
timer, always scheduled.  No field validation, no explicit duplicate
check, no amount defaulting. -/
def purchase002 (s : Store) (r : AuthReq) (now : Nat) : HttpResp × Store × List Timer :=
  match s.courses.find? (fun c => c.courseId == r.courseId) with
  | none => ({ status := 404, success := false, error := none }, s, [])
  | some _ =>
    if (s.transactions.find? (fun t => t.transactionId == r.transactionId)).isSome then
      ({ status := 500, success := false, error := none }, s, [])
    else
      let txn : TxnDoc :=
        { tid := s.nextId, transactionId := r.transactionId, userId := r.userId,
          courseId := r.courseId, amount := r.amount,
          paymentMethod := r.paymentMethod, status := "pending" }
      let s1 : Store := { s with transactions := s.transactions ++ [txn], nextId := s.nextId + 1 }
      let entry : CourseEntry :=
        { courseId := r.courseId, purchaseDate := now, status := "pending",
          transactionId := r.transactionId, accessExpiry := some (now + yearMs) }
      let s2 := pushCourse s1 r.userId entry
      ({ status := 200, success := true, error := none }, s2,
        [{ fireAt := now + activationDelay, uid := r.userId, txnId := r.transactionId,
           tid := txn.tid, courseId := r.courseId }])

/-- p001 `POST /api/purchase`: identical to p002 except that the ledger
entry schema has no `accessExpiry` field, so the appended entry carries
none. -/
def purchase001 (s : Store) (r : AuthReq) (now : Nat) : HttpResp × Store × List Timer :=
  match s.courses.find? (fun c => c.courseId == r.courseId) with
  | none => ({ status := 404, success := false, error := none }, s, [])
  | some _ =>
    if (s.transactions.find? (fun t => t.transactionId == r.transactionId)).isSome then
      ({ status := 500, success := false, error := none }, s, [])
    else
      let txn : TxnDoc :=
        { tid := s.nextId, transactionId := r.transactionId, userId := r.userId,
          courseId := r.courseId, amount := r.amount,
          paymentMethod := r.paymentMethod, status := "pending" }
      let s1 : Store := { s with transactions := s.transactions ++ [txn], nextId := s.nextId + 1 }
      let entry : CourseEntry :=
        { courseId := r.courseId, purchaseDate := now, status := "pending",
          transactionId := r.transactionId, accessExpiry := none }
      let s2 := pushCourse s1 r.userId entry
      ({ status := 200, success := true, error := none }, s2,
        [{ fireAt := now + activationDelay, uid := r.userId, txnId := r.transactionId,
           tid := txn.tid, courseId := r.courseId }])

/-- p002 `POST /api/verify-payment`: find the transaction by
`transactionId` (404 when absent), set its status to `completed`
unconditionally, then run the positional ledger update against the
*calling* user's document only. -/
def verifyPayment (s : Store) (callerId : Nat) (transactionId : String) :
    HttpResp × Store :=
  match s.transactions.find? (fun t => t.transactionId == transactionId) with
  | none => ({ status := 404, success := false, error := none }, s)
  | some txn =>
    let s1 := setTxnStatus s txn.tid "completed"
    let s2 := setEntryActive s1 callerId transactionId
    ({ status := 200, success := true, error := none }, s2)

/-- p002 `POST /api/reviews`: evaluate access via `checkCourseAccess`;
403 and no write when `hasAccess` is false, otherwise insert the review
and return success.  (The user re-load cannot fail once access was
granted; the unreachable branch mirrors the crash a null user would
cause and performs no write.) -/
def submitReview (s : Store) (userId : Nat) (courseId : String)
    (rating : Int) (review : String) (now : Nat) : HttpResp × Store :=
  let access := checkCourseAccess s userId courseId now
  if access.hasAccess then
    match s.users.find? (fun u => u.uid == userId) with
    | none => ({ status := 500, success := false, error := none }, s)
    | some u =>
      ({ status := 200, success := true, error := none },
       { s with reviews := s.reviews ++
          [{ courseId := courseId, userId := userId, userName := u.name,
             userEmail := u.email, rating := rating, review := review }] })
  else ({ status := 403, success := false, error := none }, s)

/-- Outcome of one awaited store update inside a timer callback: either
the driver succeeds or it fails with a message (fault injection). -/
inductive OpOutcome where
  | ok : OpOutcome
  | fail : String → OpOutcome
deriving Repr, DecidableEq

/-- Run one fallible update: on success apply the effect, on failure
report the driver's error. -/
def applyOp (f : Store → Store) (o : OpOutcome) (s : Store) : Except String Store :=
  match o with
  | .ok => .ok (f s)
  | .fail msg => .error msg

/-- The sequence of awaited updates in the server variant's timer
callback, stopping at the first failure: returns the store state reached
and the error, if any. -/
def timerUpdatesServer (tm : Timer) (o1 o2 o3 : OpOutcome) (s : Store) :
    Store × Option String :=
  match applyOp (fun x => setTxnStatus x tm.tid "completed") o1 s with
  | .error e => (s, some e)
  | .ok s1 =>
    match applyOp (fun x => setEntryActive x tm.uid tm.txnId) o2 s1 with
    | .error e => (s1, some e)
    | .ok s2 =>
      match applyOp (fun x => incStudents x tm.courseId) o3 s2 with
      | .error e => (s2, some e)
      | .ok s3 => (s3, none)

/-- The server variant's timer callback body: the updates run inside
`try { ... } catch (err) { console.error(...) }`, so any failure is
logged and swallowed and the callback always completes normally
(`Except.ok`), leaving the store as far as the updates got. -/
def timerBodyServer (tm : Timer) (o1 o2 o3 : OpOutcome) (s : Store) :
    Except String Store :=
  .ok (timerUpdatesServer tm o1 o2 o3 s).1

/-- The sequence of awaited updates in the p001/p002 timer callback. -/
def timerUpdatesP (tm : Timer) (o1 o2 : OpOutcome) (s : Store) :
    Store × Option String :=
  match applyOp (fun x => setTxnStatus x tm.tid "completed") o1 s with
  | .error e => (s, some e)
  | .ok s1 =>
    match applyOp (fun x => setEntryActive x tm.uid tm.txnId) o2 s1 with
    | .error e => (s1, some e)
    | .ok s2 => (s2, none)

/-- The p001/p002 timer callback body: there is no `try`/`catch`, so the
first failing update escapes the async callback as an unhandled
rejection (`Except.error`). -/
def timerBodyP (tm : Timer) (o1 o2 : OpOutcome) (s : Store) :
    Except String Store :=
  match timerUpdatesP tm o1 o2 s with
  | (s1, none) => .ok s1
  | (_, some e) => .error e

/-- The per-user `accessExpiry` column of the whole store: the shape the
immutability claim is about. -/
def ledgerExpiries (s : Store) : List (Nat × List (Option Nat)) :=
  s.users.map (fun u => (u.uid, u.courses.map (fun e => e.accessExpiry)))

/-! ### Concrete example documents used by counterexamples and witnesses -/

/-- A ledger entry whose stored status is `'active'` but whose
`accessExpiry` (epoch ms 100) is already in the past at time 200. -/
def cxEntry : CourseEntry :=
  { courseId := "practical-ibarot", purchaseDate := 0, status := "active",
    transactionId := "TX1", accessExpiry := some 100 }

/-- The user holding `cxEntry`. -/
def cxUser : UserDoc :=
  { uid := 1, name := "Alice", email := "a@example.com", phone := none,
    password := "pw", courses := [cxEntry] }

/-- The sample course document seeded by `initializeSampleData`
(price 3000, discountedPrice 1500). -/
def cxCourse : CourseDoc :=
  { courseId := "practical-ibarot", title := "practical ibarot", price := 3000,
    discountedPrice := some 1500, isActive := true, totalStudents := 0 }

/-- A store holding the user with the expired-but-still-active entry. -/
def cxStore : Store :=
  { nextId := 2, users := [cxUser], courses := [cxCourse],
    transactions := [], reviews := [] }

/-- A pending ledger entry for transaction `TX1`. -/
def cx9Entry : CourseEntry :=
  { courseId := "practical-ibarot", purchaseDate := 0, status := "pending",
    transactionId := "TX1", accessExpiry := some yearMs }

/-- The owner of the pending `TX1` purchase (user id 1). -/
def cx9User : UserDoc :=
  { uid := 1, name := "Alice", email := "a@example.com", phone := none,
    password := "pw", courses := [cx9Entry] }

/-- The pending transaction `TX1`, owned by user 1. -/
def cx9Txn : TxnDoc :=
  { tid := 5, transactionId := "TX1", userId := 1,
    courseId := "practical-ibarot", amount := some 1500,
    paymentMethod := "bkash", status := "pending" }

/-- A store immediately after user 1's purchase `TX1` was accepted:
transaction and ledger entry both `pending`. -/
def cx9Store : Store :=
  { nextId := 6, users := [cx9User], courses := [cxCourse],
    transactions := [cx9Txn], reviews := [] }

/-- A registered user with an empty ledger. -/
def cx2User : UserDoc :=
  { uid := 1, name := "Alice", email := "a@example.com", phone := none,
    password := "pw", courses := [] }

/-- A fresh store: one user with no purchases, the sample course, no
transactions. -/
def cx2Store : Store :=
  { nextId := 10, users := [cx2User], courses := [cxCourse],
    transactions := [], reviews := [] }

/-- An authenticated p001/p002 purchase request for the sample course. -/
def cx2Req : AuthReq :=
  { userId := 1, courseId := "practical-ibarot", paymentMethod := "bkash",
    transactionId := "TX9", amount := some 1500 }

/-- A complete server-variant purchase request with the `amount` field
omitted. -/
def cxSrvReq : ServerReq :=
  { name := some "Alice", email := some "a@example.com", phone := none,
    txnId := some "TX9", paymentMethod := some "bkash",
    courseId := some "practical-ibarot", amount := none }

/-- A server-variant purchase request from a *different*, unknown user
(`b@example.com`) re-using the already-stored transaction id `TX1`. -/
def cxDupReq : ServerReq :=
  { name := some "Bob", email := some "b@example.com", phone := none,
    txnId := some "TX1", paymentMethod := some "nagad",
    courseId := some "practical-ibarot", amount := none }

/-- A server-variant purchase request with the required `name` field
absent. -/
def cxMissingReq : ServerReq :=
  { name := none, email := some "a@example.com", phone := none,
    txnId := some "TX1", paymentMethod := some "bkash",
    courseId := some "practical-ibarot", amount := none }

/-- An authenticated purchase request whose `transactionId` is empty. -/
def cxEmptyTxnReq : AuthReq :=
  { userId := 1, courseId := "practical-ibarot", paymentMethod := "bkash",
    transactionId := "", amount := none }

/-- An authenticated purchase request with the `amount` field omitted. -/
def cxNoAmountReq : AuthReq :=
  { userId := 1, courseId := "practical-ibarot", paymentMethod := "bkash",
    transactionId := "TX7", amount := none }

/-- An authenticated p002 purchase request re-using the already-stored
transaction id `TX1`. -/
def cxDupAuthReq : AuthReq :=
  { userId := 1, courseId := "practical-ibarot", paymentMethod := "nagad",
    transactionId := "TX1", amount := some 1500 }

/-- The ledger entry `purchase002` appends for `cx2Req` at time 0. -/
def cx4Entry : CourseEntry :=
  { courseId := "practical-ibarot", purchaseDate := 0, status := "pending",
    transactionId := "TX9", accessExpiry := some (0 + yearMs) }

/-- User 1's document right after that purchase. -/
def cx4User : UserDoc :=
  { uid := 1, name := "Alice", email := "a@example.com", phone := none,
    password := "pw", courses := [cx4Entry] }

/-! ### Helper lemmas about the store primitives -/

/-- A keyed in-place update commutes with `find?` on the same key,
provided the update preserves the key. -/
theorem find?_map_keyed {α : Type} (k : α → Bool) (f : α → α)
    (hf : ∀ a, k (f a) = k a) :
    ∀ l : List α, (l.map (fun a => if k a then f a else a)).find? k = (l.find? k).map f
  | [] => rfl
  | a :: l => by
    by_cases h : k a = true
    · simp [List.find?_cons_of_pos, h, (hf a).trans h]
    · have h' : k a = false := by simpa using h
      simp only [List.map_cons, if_neg (by simp [h'] : ¬ k a = true)]
      rw [List.find?_cons_of_neg _ (by simp [h']), List.find?_cons_of_neg _ (by simp [h'])]
      exact find?_map_keyed k f hf l

/-- The positional activation commutes with `find?` on the transaction
id: the first matching entry is returned with its status set to
`'active'`, everything else is untouched. -/
theorem find?_activateFirst (txnId : String) :
    ∀ l : List CourseEntry,
      (activateFirst l txnId).find? (fun e => e.transactionId == txnId) =
        (l.find? (fun e => e.transactionId == txnId)).map
          (fun e => { e with status := "active" })
  | [] => rfl
  | e :: l => by
    by_cases h : e.transactionId == txnId
    · simp [activateFirst, h, List.find?_cons_of_pos]
    · have h' : (e.transactionId == txnId) = false := by simpa using h
      simp only [activateFirst, h', Bool.false_eq_true, if_false]
      rw [List.find?_cons_of_neg _ (by simp [h']), List.find?_cons_of_neg _ (by simp [h'])]
      exact find?_activateFirst txnId l

/-- Positional activation touches only the `status` field: the
`accessExpiry` column of a ledger is unchanged. -/
theorem activateFirst_expiries (txnId : String) :
    ∀ l : List CourseEntry,
      (activateFirst l txnId).map (fun e => e.accessExpiry) =
        l.map (fun e => e.accessExpiry)
  | [] => rfl
  | e :: l => by
    by_cases h : e.transactionId == txnId
    · simp [activateFirst, h]
    · have h' : (e.transactionId == txnId) = false := by simpa using h
      simp [activateFirst, h', activateFirst_expiries txnId l]

/-- `setTxnStatus` does not touch user documents. -/
theorem ledgerExpiries_setTxnStatus (s : Store) (tid : Nat) (st : String) :
    ledgerExpiries (setTxnStatus s tid st) = ledgerExpiries s := rfl

/-- `incStudents` does not touch user documents. -/
theorem ledgerExpiries_incStudents (s : Store) (cid : String) :
    ledgerExpiries (incStudents s cid) = ledgerExpiries s := rfl

/-- `setEntryActive` rewrites only a `status` field: every ledger's
`accessExpiry` column is unchanged. -/
theorem ledgerExpiries_setEntryActive (s : Store) (uid : Nat) (txnId : String) :
    ledgerExpiries (setEntryActive s uid txnId) = ledgerExpiries s := by
  unfold ledgerExpiries setEntryActive
  simp only [List.map_map]
  apply List.map_congr_left
  intro u _
  by_cases h : u.uid = uid
  · simp [h, activateFirst_expiries]
  · simp [h]

/-- Reading a transaction's status after an update by the same id. -/
theorem readTxnStatus_setTxnStatus (s : Store) (tid : Nat) (st : String) :
    readTxnStatus (setTxnStatus s tid st) tid =
      (readTxnStatus s tid).map (fun _ => st) := by
  unfold readTxnStatus setTxnStatus
  dsimp only
  rw [find?_map_keyed (fun (t : TxnDoc) => t.tid == tid)
        (fun t => { t with status := st }) (fun _ => rfl)]
  cases s.transactions.find? (fun t => t.tid == tid) <;> rfl

/-- Reading a ledger entry's status after the positional activation on
the same (user, transaction id). -/
theorem readEntryStatus_setEntryActive (s : Store) (uid : Nat) (txnId : String) :
    readEntryStatus (setEntryActive s uid txnId) uid txnId =
      (readEntryStatus s uid txnId).map (fun _ => "active") := by
  unfold readEntryStatus setEntryActive
  dsimp only
  rw [find?_map_keyed (fun (u : UserDoc) => u.uid == uid)
        (fun u => { u with courses := activateFirst u.courses txnId }) (fun _ => rfl)]
  cases s.users.find? (fun u => u.uid == uid) with
  | none => rfl
  | some u =>
    simp only [Option.map_some']
    rw [find?_activateFirst]
    cases u.courses.find? (fun e => e.transactionId == txnId) <;> rfl

/-- Projections of a store that only rewrites `users` leave the
transactions collection alone. -/
theorem readTxnStatus_pushCourse (s : Store) (uid : Nat) (e : CourseEntry) (tid : Nat) :
    readTxnStatus (pushCourse s uid e) tid = readTxnStatus s tid := rfl

/-- `setEntryActive` leaves the transactions collection alone. -/
theorem readTxnStatus_setEntryActive (s : Store) (uid : Nat) (txnId : String) (tid : Nat) :
    readTxnStatus (setEntryActive s uid txnId) tid = readTxnStatus s tid := rfl

/-- `incStudents` leaves the transactions collection alone. -/
theorem readTxnStatus_incStudents (s : Store) (cid : String) (tid : Nat) :
    readTxnStatus (incStudents s cid) tid = readTxnStatus s tid := rfl

/-- `setTxnStatus` leaves the users collection alone. -/
theorem readEntryStatus_setTxnStatus (s : Store) (tid : Nat) (st : String)
    (uid : Nat) (txnId : String) :
    readEntryStatus (setTxnStatus s tid st) uid txnId = readEntryStatus s uid txnId := rfl

/-- `incStudents` leaves the users collection alone. -/
theorem readEntryStatus_incStudents (s : Store) (cid : String)
    (uid : Nat) (txnId : String) :
    readEntryStatus (incStudents s cid) uid txnId = readEntryStatus s uid txnId := rfl

/-- Reading the ledger right after a `$push` of a fresh entry (the user
exists and no earlier entry carries the pushed transaction id) finds the
pushed entry. -/
theorem readEntryStatus_pushCourse_fresh (s : Store) (uid : Nat) (e : CourseEntry)
    (u : UserDoc) (hu : s.users.find? (fun x => x.uid == uid) = some u)
    (hfresh : u.courses.find? (fun c => c.transactionId == e.transactionId) = none) :
    readEntryStatus (pushCourse s uid e) uid e.transactionId = some e.status := by
  unfold readEntryStatus pushCourse
  dsimp only
  rw [find?_map_keyed (fun (x : UserDoc) => x.uid == uid)
        (fun x => { x with courses := x.courses ++ [e] }) (fun _ => rfl), hu]
  dsimp only [Option.map_some']
  rw [List.find?_append, hfresh]
  simp [List.find?]

/-- One event-loop step over a single scheduled timer. -/
theorem runDue_single (f : Store → Timer → Store) (s : Store) (tm : Timer) (t : Nat) :
    runDue f s [tm] t = if tm.fireAt ≤ t then (f s tm, []) else (s, [tm]) := by
  unfold runDue
  by_cases h : tm.fireAt ≤ t <;> simp [h]

/-- If the p002 access evaluator grants access, the user document was
found. -/
theorem hasAccess_user_found (s : Store) (uid : Nat) (cid : String) (now : Nat)
    (h : (checkCourseAccess s uid cid now).hasAccess = true) :
    ∃ u, s.users.find? (fun x => x.uid == uid) = some u := by
  unfold checkCourseAccess at h
  cases hu : s.users.find? (fun x => x.uid == uid) with
  | none => rw [hu] at h; simp at h
  | some u => exact ⟨u, rfl⟩

/-- Every ledger entry after a `$push` is either an entry the same user
already had, or the pushed entry itself. -/
theorem pushCourse_entry_mem (s : Store) (uid : Nat) (e0 : CourseEntry) :
    ∀ u' ∈ (pushCourse s uid e0).users, ∀ x ∈ u'.courses,
      (∃ u ∈ s.users, u.uid = u'.uid ∧ x ∈ u.courses) ∨ x = e0 := by
  intro u' hu' x hx
  unfold pushCourse at hu'
  dsimp only at hu'
  rw [List.mem_map] at hu'
  obtain ⟨u, hu, hmap⟩ := hu'
  by_cases h : u.uid = uid
  · subst hmap
    rw [if_pos (by simp [h])] at hx ⊢
    rcases List.mem_append.mp hx with hl | hr
    · exact Or.inl ⟨u, hu, rfl, hl⟩
    · exact Or.inr (List.mem_singleton.mp hr)
  · subst hmap
    rw [if_neg (by simp [h])] at hx ⊢
    exact Or.inl ⟨u, hu, rfl, hx⟩

/-! ### C1 — Access Evaluator tri-state -/

/-- C1 counterexample: the claim states that an entry whose
`accessExpiry` lies before the evaluation time yields
`hasAccess = false, status = expired` even when the stored status is
`'active'`.  The server variant's access evaluator
(`GET /api/check-access/:courseId`) violates this: for the stored entry
`cxEntry` (accessExpiry = 100, stored status `'active'`) and any
evaluation time, say 200 > 100, it reports `hasAccess = true` with
status `'active'`, because the handler never compares `accessExpiry`
with the clock. -/
theorem C1_counterexample :
    cxEntry.accessExpiry = some 100 ∧ (100 : Nat) < 200 ∧ cxEntry.status = "active"
    ∧ checkAccessServer cxStore "a@example.com" "practical-ibarot" =
        { hasAccess := true, status := some "active" } :=
  ⟨rfl, by decide, rfl, rfl⟩

/-- C1 (amended): the tri-state evaluation holds of the p002 Access
Evaluator `checkCourseAccess` — no entry → `hasAccess = false`; first
matching entry with `accessExpiry` before the evaluation time →
`hasAccess = false, status = 'expired'` computed at read time (the
stored entry is not rewritten: the evaluator is a pure read), whatever
the stored status; otherwise the stored status is reported with
`hasAccess = (status == 'active')`, so `'active'` → `true` and
`'pending'` → `false` with status `'pending'`.  The server variant's
evaluator instead always reports the stored status of the first
matching entry with `hasAccess = (status == 'active')`, performing no
expiry computation (last conjunct). -/
theorem C1_access_evaluator_tristate (s : Store) (uid : Nat) (cid : String)
    (now : Nat) (em : String) :
    (s.users.find? (fun u => u.uid == uid) = none →
      checkCourseAccess s uid cid now = { hasAccess := false, status := none })
    ∧ (∀ u, s.users.find? (fun u => u.uid == uid) = some u →
        ((u.courses.find? (fun c => c.courseId == cid) = none →
            checkCourseAccess s uid cid now = { hasAccess := false, status := none })
         ∧ (∀ e, u.courses.find? (fun c => c.courseId == cid) = some e →
             ((∀ exp, e.accessExpiry = some exp → exp < now →
                 checkCourseAccess s uid cid now =
                   { hasAccess := false, status := some "expired" })
              ∧ ((∀ exp, e.accessExpiry = some exp → ¬ exp < now) →
                  checkCourseAccess s uid cid now =
                    { hasAccess := e.status == "active", status := some e.status })))))
    ∧ (∀ u e, s.users.find? (fun u => u.email == em) = some u →
        u.courses.find? (fun c => c.courseId == cid) = some e →
        checkAccessServer s em cid =
          { hasAccess := e.status == "active", status := some e.status }) := by
  refine ⟨?_, ?_, ?_⟩
  · intro h; unfold checkCourseAccess; rw [h]
  · intro u hu
    refine ⟨?_, ?_⟩
    · intro h; simp [checkCourseAccess, hu, h]
    · intro e he
      refine ⟨?_, ?_⟩
      · intro exp hexp hlt
        simp [checkCourseAccess, hu, he, hexp, hlt]
      · intro hne
        cases hexp : e.accessExpiry with
        | none => simp [checkCourseAccess, hu, he, hexp]
        | some exp => simp [checkCourseAccess, hu, he, hexp, hne exp hexp]
  · intro u e hu he
    simp [checkAccessServer, hu, he]

/-- C1 witness: the amended theorem applied to the concrete store
`cxStore` at evaluation time 200 — the p002 evaluator computes
`expired` at read time for the stored-`'active'` entry. -/
theorem C1_access_evaluator_tristate_witness :
    checkCourseAccess cxStore 1 "practical-ibarot" 200 =
      { hasAccess := false, status := some "expired" } :=
  (((C1_access_evaluator_tristate cxStore 1 "practical-ibarot" 200
      "a@example.com").2.1 cxUser (by decide)).2 cxEntry (by decide)).1
    100 rfl (by decide)

/-! ### C7 — review submission requires access -/

/-- C7: review submission delegates to the p002 Access Evaluator.  When
the evaluation yields `hasAccess = false` (no entry, pending, or
expired — the cases of C1) the request fails with HTTP 403 and the
store — in particular the reviews collection — is completely unchanged;
when it yields `hasAccess = true`, the handler returns success and
appends exactly one review record carrying the submitting user's name
and email. -/
theorem C7_review_requires_access (s : Store) (uid : Nat) (cid : String)
    (rating : Int) (rv : String) (now : Nat) :
    ((checkCourseAccess s uid cid now).hasAccess = false →
      submitReview s uid cid rating rv now =
        ({ status := 403, success := false, error := none }, s))
    ∧ ((checkCourseAccess s uid cid now).hasAccess = true →
      (submitReview s uid cid rating rv now).1 =
        { status := 200, success := true, error := none }
      ∧ ∃ u, s.users.find? (fun x => x.uid == uid) = some u ∧
          (submitReview s uid cid rating rv now).2 =
            { s with reviews := s.reviews ++
                [{ courseId := cid, userId := uid, userName := u.name,
                   userEmail := u.email, rating := rating, review := rv }] }) := by
  constructor
  · intro h
    unfold submitReview
    rw [if_neg (by simp [h])]
  · intro h
    obtain ⟨u, hu⟩ := hasAccess_user_found s uid cid now h
    unfold submitReview
    rw [if_pos h, hu]
    exact ⟨rfl, u, rfl, rfl⟩

/-- C7 witness: on `cxStore` at time 200 the evaluator reports
`expired`, so a review submission is rejected with 403 and no review is
stored. -/
theorem C7_review_requires_access_witness :
    submitReview cxStore 1 "practical-ibarot" 5 "great" 200 =
      ({ status := 403, success := false, error := none }, cxStore) :=
  (C7_review_requires_access cxStore 1 "practical-ibarot" 5 "great" 200).1 (by decide)

/-! ### C8 — activation-timer failures -/

/-- C8 counterexample: the claim says the Activation Timer's store
failures are always caught and never escape the deferred action.  The
p001/p002 timer callback has no `try`/`catch`: with the first update
succeeding and the second failing (injected driver fault "db down"),
the callback body terminates with the error escaping — an unhandled
promise rejection. -/
theorem C8_counterexample :
    timerBodyP { fireAt := 10000, uid := 1, txnId := "TX1", tid := 5,
                 courseId := "practical-ibarot" }
      .ok (.fail "db down") cxStore = .error "db down" := rfl

/-- C8 (amended): the server variant's timer body wraps its updates in
`try`/`catch`, so under any injected failure of the three store updates
it completes normally (never an escaping error), with the store as far
as the updates got; on the failure-free path it performs exactly the
activation effect; and a failure of the very first update leaves the
store untouched (logged and dropped, not retried).  The p001/p002
variant's timer body lacks the `try`/`catch` (see the counterexample). -/
theorem C8_timer_failures_swallowed (tm : Timer) (o1 o2 o3 : OpOutcome) (s : Store) :
    (∃ s', timerBodyServer tm o1 o2 o3 s = .ok s')
    ∧ timerBodyServer tm .ok .ok .ok s = .ok (fireTimerServer s tm)
    ∧ (∀ m, timerBodyServer tm (.fail m) o2 o3 s = .ok s) :=
  ⟨⟨(timerUpdatesServer tm o1 o2 o3 s).1, rfl⟩, rfl, fun _ => rfl⟩

/-! ### C9 — verify-payment: unconditional transaction completion,
caller-scoped ledger update -/

/-- C9: for a stored transaction matching the supplied `transactionId`,
`POST /api/verify-payment` answers success and sets that transaction's
status to `completed` unconditionally — no hypothesis restricts the
transaction's prior status or the caller.  The ledger update is scoped
to the *caller*: every user document other than the caller's is left
verbatim unchanged (third conjunct), so when the caller is not the
transaction's owner the owner's `pending` entry stays `pending` while
the transaction reads `completed`; the caller's own first matching
entry, if any, is set `active` (fourth conjunct). -/
theorem C9_verify_payment (s : Store) (caller : Nat) (txnId : String) (txn : TxnDoc)
    (h : s.transactions.find? (fun t => t.transactionId == txnId) = some txn) :
    (verifyPayment s caller txnId).1 = { status := 200, success := true, error := none }
    ∧ readTxnStatus (verifyPayment s caller txnId).2 txn.tid = some "completed"
    ∧ (∀ u ∈ s.users, u.uid ≠ caller → u ∈ (verifyPayment s caller txnId).2.users)
    ∧ readEntryStatus (verifyPayment s caller txnId).2 caller txnId =
        (readEntryStatus s caller txnId).map (fun _ => "active") := by
  have hmem := List.mem_of_find?_eq_some h
  have hsome : (s.transactions.find? (fun t => t.tid == txn.tid)).isSome :=
    List.find?_isSome.mpr ⟨txn, hmem, by simp⟩
  obtain ⟨t0, ht0⟩ := Option.isSome_iff_exists.mp hsome
  unfold verifyPayment
  rw [h]
  dsimp only
  refine ⟨rfl, ?_, ?_, ?_⟩
  · rw [readTxnStatus_setEntryActive, readTxnStatus_setTxnStatus]
    unfold readTxnStatus
    rw [ht0]
    rfl
  · intro u hu hne
    unfold setEntryActive setTxnStatus
    dsimp only
    exact List.mem_map.mpr ⟨u, hu, by rw [if_neg (by simp [hne])]⟩
  · rw [readEntryStatus_setEntryActive, readEntryStatus_setTxnStatus]

/-- C9 witness: a store with a pending transaction `TX1` owned by user
1; caller 2 verifies it — the transaction reads `completed` afterwards,
and the owner's document is untouched. -/
theorem C9_verify_payment_witness :
    readTxnStatus (verifyPayment cx9Store 2 "TX1").2 5 = some "completed"
    ∧ cx9User ∈ (verifyPayment cx9Store 2 "TX1").2.users :=
  ⟨(C9_verify_payment cx9Store 2 "TX1" cx9Txn (by decide)).2.1,
   (C9_verify_payment cx9Store 2 "TX1" cx9Txn (by decide)).2.2.1 cx9User (by decide)
     (by decide)⟩

/-! ### C6 — missing-field validation -/

/-- C6 counterexample: the claim states that every purchase request
with an absent/empty required field is rejected with 400
`MISSING_FIELDS` before any store write.  The p002 purchase route has no
such validation: a request whose `transactionId` is empty is accepted
with HTTP 200 and performs store writes (a transaction is inserted). -/
theorem C6_counterexample :
    (purchase002 cx2Store cxEmptyTxnReq 0).1 =
      { status := 200, success := true, error := none }
    ∧ (purchase002 cx2Store cxEmptyTxnReq 0).2.1.transactions.length = 1
    ∧ (purchase002 cx2Store cxEmptyTxnReq 0).2.1 ≠ cx2Store := by decide

/-- C6 (amended): in the server variant, a purchase request in which
`name`, `email`, `txnId`, `paymentMethod` or `courseId` is absent or
empty (the `missingFields` guard) is rejected with HTTP 400 and error
code `MISSING_FIELDS`, the store is returned exactly as it was (no
write of any kind), and nothing is scheduled.  The p002 variant
performs no such validation (see the counterexample). -/
theorem C6_missing_fields (s : Store) (r : ServerReq) (now : Nat)
    (production : Bool) (pw : String) (hm : missingFields r = true) :
    purchaseServer s r now production pw =
      ({ status := 400, success := false, error := some "MISSING_FIELDS" }, s, []) := by
  unfold purchaseServer
  rw [if_pos hm]

/-- C6 witness: a request with `name` absent is rejected and the store
is unchanged. -/
theorem C6_missing_fields_witness :
    purchaseServer cxStore cxMissingReq 0 false "rnd" =
      ({ status := 400, success := false, error := some "MISSING_FIELDS" }, cxStore, []) :=
  C6_missing_fields cxStore cxMissingReq 0 false "rnd" (by decide)

/-! ### C3 — duplicate-transaction rejection -/

/-- C3 counterexample: the claim states that re-using a stored
transaction id is rejected with HTTP 400 and error code
`DUPLICATE_TRANSACTION`.  The p002 purchase route has no duplicate
check: re-submitting `TX1` makes `transaction.save()` fail on the
unique index, which the handler surfaces as HTTP 500 with the driver's
message — not a 400 and not a `DUPLICATE_TRANSACTION` code. -/
theorem C3_counterexample :
    (purchase002 cx9Store cxDupAuthReq 0).1 =
      { status := 500, success := false, error := none }
    ∧ (purchase002 cx9Store cxDupAuthReq 0).1.status ≠ 400
    ∧ (purchase002 cx9Store cxDupAuthReq 0).1.error ≠ some "DUPLICATE_TRANSACTION" := by
  decide

/-- C3 (amended): in the server variant, a validated purchase request
for an existing course whose transaction id matches a stored
transaction is rejected with HTTP 400 / `DUPLICATE_TRANSACTION`,
whatever email submits it (the email is arbitrary here); the
transactions collection is unchanged and every pre-existing user
document — in particular the first purchase's pending ledger entry — is
left verbatim in the store; nothing is scheduled.  The p002 variant
instead fails with a 500 and no error code (see the counterexample). -/
theorem C3_duplicate_transaction (s : Store) (r : ServerReq) (now : Nat)
    (production : Bool) (pw : String) (c : CourseDoc) (t0 : TxnDoc)
    (hm : missingFields r = false)
    (hc : s.courses.find? (fun x => x.courseId == r.courseId.getD "" && x.isActive) = some c)
    (hd : s.transactions.find? (fun t => t.transactionId == r.txnId.getD "") = some t0) :
    (purchaseServer s r now production pw).1 =
      { status := 400, success := false, error := some "DUPLICATE_TRANSACTION" }
    ∧ (purchaseServer s r now production pw).2.1.transactions = s.transactions
    ∧ (∀ u ∈ s.users, u ∈ (purchaseServer s r now production pw).2.1.users)
    ∧ (purchaseServer s r now production pw).2.2 = [] := by
  unfold purchaseServer
  rw [if_neg (by simp [hm]), hc]
  dsimp only
  cases hf : s.users.find? (fun u => u.email == r.email.getD "") with
  | some u0 =>
    dsimp only
    rw [hd]
    exact ⟨rfl, rfl, fun u hu => hu, rfl⟩
  | none =>
    dsimp only
    rw [hd]
    exact ⟨rfl, rfl, fun u hu => List.mem_append_left _ hu, rfl⟩

/-- C3 witness: user Bob (`b@example.com`, unknown to the store)
re-submits Alice's transaction id `TX1`: 400 `DUPLICATE_TRANSACTION`,
and Alice's document with its pending entry is still in the store. -/
theorem C3_duplicate_transaction_witness :
    (purchaseServer cx9Store cxDupReq 0 false "rnd").1 =
      { status := 400, success := false, error := some "DUPLICATE_TRANSACTION" }
    ∧ cx9User ∈ (purchaseServer cx9Store cxDupReq 0 false "rnd").2.1.users := by
  have h := C3_duplicate_transaction cx9Store cxDupReq 0 false "rnd" cxCourse cx9Txn
    (by decide) (by decide) (by decide)
  exact ⟨h.1, h.2.2.1 cx9User (by decide)⟩

/-! ### C10 — guest creation precedes the duplicate check -/

/-- C10: in the server variant's purchase flow the guest-user creation
(step: user lookup by email, insert when absent) happens *before* the
duplicate-transaction check: a validated request for an existing course
whose email matches no stored user and whose transaction id is already
used is rejected with 400 `DUPLICATE_TRANSACTION`, yet the store now
contains a new user document for that email, created with the generated
random password `pw` and an empty ledger — the store is not left
unchanged on this error path.  The transactions collection is
unchanged. -/
theorem C10_guest_created_on_duplicate (s : Store) (r : ServerReq) (now : Nat)
    (production : Bool) (pw : String) (c : CourseDoc) (t0 : TxnDoc)
    (hm : missingFields r = false)
    (hc : s.courses.find? (fun x => x.courseId == r.courseId.getD "" && x.isActive) = some c)
    (hf : s.users.find? (fun u => u.email == r.email.getD "") = none)
    (hd : s.transactions.find? (fun t => t.transactionId == r.txnId.getD "") = some t0) :
    (purchaseServer s r now production pw).1 =
      { status := 400, success := false, error := some "DUPLICATE_TRANSACTION" }
    ∧ (purchaseServer s r now production pw).2.1.users =
        s.users ++ [{ uid := s.nextId, name := r.name.getD "", email := r.email.getD "",
                      phone := r.phone, password := pw, courses := [] }]
    ∧ (purchaseServer s r now production pw).2.1.transactions = s.transactions := by
  unfold purchaseServer
  rw [if_neg (by simp [hm]), hc]
  dsimp only
  rw [hf]
  dsimp only
  rw [hd]
  exact ⟨rfl, rfl, rfl⟩

/-- C10 witness: Bob's duplicate request is rejected, yet a user
document for `b@example.com` was inserted and persists. -/
theorem C10_guest_created_on_duplicate_witness :
    (purchaseServer cx9Store cxDupReq 0 false "rnd").1 =
      { status := 400, success := false, error := some "DUPLICATE_TRANSACTION" }
    ∧ (purchaseServer cx9Store cxDupReq 0 false "rnd").2.1.users =
        cx9Store.users ++ [{ uid := 6, name := "Bob", email := "b@example.com",
                             phone := none, password := "rnd", courses := [] }] := by
  have h := C10_guest_created_on_duplicate cx9Store cxDupReq 0 false "rnd" cxCourse cx9Txn
    (by decide) (by decide) (by decide) (by decide)
  exact ⟨h.1, h.2.1⟩

/-! ### C5 — amount defaulting -/

/-- C5 counterexample: the claim states that when `amount` is absent
the recorded transaction's amount equals the course's discounted price
(1500 for the sample course).  The p002 purchase route records the
amount exactly as submitted, with no defaulting: with `amount` omitted
the stored transaction for `TX7` has no amount at all, although the
course's `discountedPrice` is 1500. -/
theorem C5_counterexample :
    cxCourse.discountedPrice = some 1500
    ∧ (purchase002 cx2Store cxNoAmountReq 0).1.success = true
    ∧ ∃ t ∈ (purchase002 cx2Store cxNoAmountReq 0).2.1.transactions,
        t.transactionId = "TX7" ∧ t.amount = none := by decide

/-- C5 (amended): in the server variant, an accepted purchase with the
`amount` field absent records a transaction whose amount is the JS
default `amount || discountedPrice || price`: the course's
`discountedPrice` when present *and nonzero* (JS `||` treats 0 as
falsy), otherwise the course's `price` (on the sample course:
discountedPrice 1500, price 3000 → 1500).  The p002 variant performs no
defaulting (see the counterexample). -/
theorem C5_amount_default (s : Store) (r : ServerReq) (now : Nat)
    (production : Bool) (pw : String) (c : CourseDoc)
    (hm : missingFields r = false)
    (hc : s.courses.find? (fun x => x.courseId == r.courseId.getD "" && x.isActive) = some c)
    (hd : s.transactions.find? (fun t => t.transactionId == r.txnId.getD "") = none)
    (ha : r.amount = none) :
    (purchaseServer s r now production pw).1 =
      { status := 200, success := true, error := none }
    ∧ ∃ txn, (purchaseServer s r now production pw).2.1.transactions =
          s.transactions ++ [txn]
        ∧ txn.amount = some (jsOrD c.discountedPrice c.price)
        ∧ (∀ d, c.discountedPrice = some d → ¬ d = 0 → txn.amount = some d)
        ∧ (c.discountedPrice = none → txn.amount = some c.price) := by
  unfold purchaseServer
  rw [if_neg (by simp [hm]), hc]
  dsimp only
  cases hf : s.users.find? (fun u => u.email == r.email.getD "") with
  | some u0 =>
    dsimp only
    rw [hd, ha]
    refine ⟨rfl, _, rfl, rfl, ?_, ?_⟩
    · intro d hdp hd0
      rw [hdp]
      simp [jsOrD, hd0]
    · intro hdp
      rw [hdp]
      rfl
  | none =>
    dsimp only
    rw [hd, ha]
    refine ⟨rfl, _, rfl, rfl, ?_, ?_⟩
    · intro d hdp hd0
      rw [hdp]
      simp [jsOrD, hd0]
    · intro hdp
      rw [hdp]
      rfl

/-! ### C2 — activation-timer temporal behaviour -/

/-- C2 counterexample: the claim states that *every* accepted purchase
enqueues a one-shot activation action.  In the server variant the
`setTimeout` is gated on `NODE_ENV !== 'production'`: in production a
purchase is accepted (HTTP 200, success) yet nothing is scheduled, so
the transaction/ledger pair can never be activated. -/
theorem C2_counterexample :
    (purchaseServer cxStore cxSrvReq 0 true "rnd").1 =
      { status := 200, success := true, error := none }
    ∧ (purchaseServer cxStore cxSrvReq 0 true "rnd").2.2 = [] := by decide

/-- C2 (amended): in the p002 variant (and in the server variant
outside production) every accepted purchase schedules exactly one
activation timer, due `activationDelay` (10 s) after the purchase, and
the success response is produced in the same step — without waiting for
the timer.  Immediately after the purchase both the created transaction
and the new ledger entry read `pending`; an event-loop step at any time
strictly before the due time fires nothing and changes nothing; an
event-loop step at any time at or after the due time consumes the timer
(one-shot) and leaves the transaction reading `completed` and the entry
reading `active`.  In the server variant under `NODE_ENV=production`
nothing is scheduled (see the counterexample). -/
theorem C2_activation_timer (s : Store) (r : AuthReq) (now : Nat)
    (c : CourseDoc) (u : UserDoc)
    (hc : s.courses.find? (fun x => x.courseId == r.courseId) = some c)
    (hd : s.transactions.find? (fun t => t.transactionId == r.transactionId) = none)
    (hu : s.users.find? (fun x => x.uid == r.userId) = some u)
    (hfe : u.courses.find? (fun e => e.transactionId == r.transactionId) = none)
    (hft : s.transactions.find? (fun t => t.tid == s.nextId) = none) :
    (purchase002 s r now).1 = { status := 200, success := true, error := none }
    ∧ (purchase002 s r now).2.2 =
        [{ fireAt := now + activationDelay, uid := r.userId, txnId := r.transactionId,
           tid := s.nextId, courseId := r.courseId }]
    ∧ readTxnStatus (purchase002 s r now).2.1 s.nextId = some "pending"
    ∧ readEntryStatus (purchase002 s r now).2.1 r.userId r.transactionId = some "pending"
    ∧ (∀ t, t < now + activationDelay →
        runDue fireTimerP (purchase002 s r now).2.1 (purchase002 s r now).2.2 t =
          ((purchase002 s r now).2.1, (purchase002 s r now).2.2))
    ∧ (∀ t, now + activationDelay ≤ t →
        readTxnStatus (runDue fireTimerP (purchase002 s r now).2.1
            (purchase002 s r now).2.2 t).1 s.nextId = some "completed"
        ∧ readEntryStatus (runDue fireTimerP (purchase002 s r now).2.1
            (purchase002 s r now).2.2 t).1 r.userId r.transactionId = some "active"
        ∧ (runDue fireTimerP (purchase002 s r now).2.1
            (purchase002 s r now).2.2 t).2 = []) := by
  have hP : purchase002 s r now =
      ({ status := 200, success := true, error := none },
       pushCourse
         { s with
           transactions := s.transactions ++
                             [{ tid := s.nextId, transactionId := r.transactionId,
                                userId := r.userId, courseId := r.courseId,
                                amount := r.amount, paymentMethod := r.paymentMethod,
                                status := "pending" }],
           nextId := s.nextId + 1 }
         r.userId
         { courseId := r.courseId, purchaseDate := now, status := "pending",
           transactionId := r.transactionId, accessExpiry := some (now + yearMs) },
       [{ fireAt := now + activationDelay, uid := r.userId, txnId := r.transactionId,
          tid := s.nextId, courseId := r.courseId }]) := by
    unfold purchase002
    rw [hc, hd]
    rfl
  rw [hP]
  dsimp only
  refine ⟨rfl, rfl, ?_, ?_, ?_, ?_⟩
  · rw [readTxnStatus_pushCourse]
    unfold readTxnStatus
    dsimp only
    rw [List.find?_append, hft]
    simp [List.find?]
  · unfold readEntryStatus pushCourse
    dsimp only
    rw [find?_map_keyed (fun (x : UserDoc) => x.uid == r.userId)
          (fun x => { x with courses := x.courses ++
            [{ courseId := r.courseId, purchaseDate := now, status := "pending",
               transactionId := r.transactionId,
               accessExpiry := some (now + yearMs) }] }) (fun _ => rfl), hu]
    dsimp only [Option.map_some']
    rw [List.find?_append, hfe]
    simp [List.find?]
  · intro t ht
    rw [runDue_single, if_neg (Nat.not_le.mpr ht)]
  · intro t ht
    rw [runDue_single, if_pos ht]
    dsimp only
    refine ⟨?_, ?_, rfl⟩
    · dsimp only [fireTimerP]
      rw [readTxnStatus_setEntryActive, readTxnStatus_setTxnStatus,
          readTxnStatus_pushCourse]
      unfold readTxnStatus
      dsimp only
      rw [List.find?_append, hft]
      simp [List.find?]
    · dsimp only [fireTimerP]
      rw [readEntryStatus_setEntryActive, readEntryStatus_setTxnStatus]
      unfold readEntryStatus pushCourse
      dsimp only
      rw [find?_map_keyed (fun (x : UserDoc) => x.uid == r.userId)
            (fun x => { x with courses := x.courses ++
              [{ courseId := r.courseId, purchaseDate := now, status := "pending",
                 transactionId := r.transactionId,
                 accessExpiry := some (now + yearMs) }] }) (fun _ => rfl), hu]
      dsimp only [Option.map_some']
      rw [List.find?_append, hfe]
      simp [List.find?]

/-- C2 witness: on the fresh store, user 1 purchases the sample course
(`TX9`) at time 0; the event-loop step at the due time 10000 yields
`completed`/`active` for the pair. -/
theorem C2_activation_timer_witness :
    readTxnStatus (runDue fireTimerP (purchase002 cx2Store cx2Req 0).2.1
        (purchase002 cx2Store cx2Req 0).2.2 10000).1 10 = some "completed"
    ∧ readEntryStatus (runDue fireTimerP (purchase002 cx2Store cx2Req 0).2.1
        (purchase002 cx2Store cx2Req 0).2.2 10000).1 1 "TX9" = some "active" := by
  have h := C2_activation_timer cx2Store cx2Req 0 cxCourse cx2User (by decide) (by decide)
    (by decide) (by decide) (by decide)
  have h6 := h.2.2.2.2.2 10000 (by decide)
  exact ⟨h6.1, h6.2.1⟩

/-! ### C4 — accessExpiry: set once at purchase, never modified -/

/-- Every ledger entry present after a server-variant purchase either
already belonged to the same user, or is the freshly appended entry,
whose `accessExpiry` is `now + 365 days`. -/
theorem purchaseServer_new_entries (s : Store) (r : ServerReq) (now : Nat)
    (production : Bool) (pw : String) :
    ∀ u' ∈ (purchaseServer s r now production pw).2.1.users, ∀ x ∈ u'.courses,
      (∃ u ∈ s.users, u.uid = u'.uid ∧ x ∈ u.courses) ∨
        x.accessExpiry = some (now + yearMs) := by
  unfold purchaseServer
  by_cases hm : missingFields r = true
  · rw [if_pos hm]
    intro u' hu' x hx
    exact Or.inl ⟨u', hu', rfl, hx⟩
  · rw [if_neg hm]
    cases hc : s.courses.find? (fun c => c.courseId == r.courseId.getD "" && c.isActive) with
    | none =>
      intro u' hu' x hx
      exact Or.inl ⟨u', hu', rfl, hx⟩
    | some c =>
      dsimp only
      cases hf : s.users.find? (fun u => u.email == r.email.getD "") with
      | some u0 =>
        dsimp only
        cases hd : s.transactions.find? (fun t => t.transactionId == r.txnId.getD "") with
        | some t0 =>
          intro u' hu' x hx
          exact Or.inl ⟨u', hu', rfl, hx⟩
        | none =>
          intro u' hu' x hx
          rcases pushCourse_entry_mem _ _ _ u' hu' x hx with ⟨u, hum, heq, hxm⟩ | hx2
          · exact Or.inl ⟨u, hum, heq, hxm⟩
          · subst hx2; exact Or.inr rfl
      | none =>
        dsimp only
        cases hd : s.transactions.find? (fun t => t.transactionId == r.txnId.getD "") with
        | some t0 =>
          intro u' hu' x hx
          rcases List.mem_append.mp hu' with h1 | h2
          · exact Or.inl ⟨u', h1, rfl, hx⟩
          · rw [List.mem_singleton.mp h2] at hx
            simp at hx
        | none =>
          intro u' hu' x hx
          rcases pushCourse_entry_mem _ _ _ u' hu' x hx with ⟨u, hum, heq, hxm⟩ | hx2
          · rcases List.mem_append.mp hum with h1 | h2
            · exact Or.inl ⟨u, h1, heq, hxm⟩
            · rw [List.mem_singleton.mp h2] at hxm
              simp at hxm
          · subst hx2; exact Or.inr rfl

/-- Ledger-entry provenance for the p002 purchase: old entry of the
same user, or the appended entry with `accessExpiry = now + 365 days`. -/
theorem purchase002_new_entries (s : Store) (r : AuthReq) (now : Nat) :
    ∀ u' ∈ (purchase002 s r now).2.1.users, ∀ x ∈ u'.courses,
      (∃ u ∈ s.users, u.uid = u'.uid ∧ x ∈ u.courses) ∨
        x.accessExpiry = some (now + yearMs) := by
  unfold purchase002
  cases hc : s.courses.find? (fun x => x.courseId == r.courseId) with
  | none => intro u' hu' x hx; exact Or.inl ⟨u', hu', rfl, hx⟩
  | some c =>
    dsimp only
    by_cases hd : (s.transactions.find? (fun t => t.transactionId == r.transactionId)).isSome = true
    · rw [if_pos hd]
      intro u' hu' x hx
      exact Or.inl ⟨u', hu', rfl, hx⟩
    · rw [if_neg hd]
      intro u' hu' x hx
      rcases pushCourse_entry_mem _ _ _ u' hu' x hx with ⟨u, hum, heq, hxm⟩ | hx2
      · exact Or.inl ⟨u, hum, heq, hxm⟩
      · subst hx2; exact Or.inr rfl

/-- C4 counterexample: the claim states that *every* successful
purchase appends a ledger entry with `accessExpiry = purchase time +
365 days`.  The p001 variant's ledger schema has no `accessExpiry`
field: its accepted purchase (HTTP 200) appends the entry for `TX9`
with no `accessExpiry` at all. -/
theorem C4_counterexample :
    (purchase001 cx2Store cx2Req 0).1 =
      { status := 200, success := true, error := none }
    ∧ ∃ u ∈ (purchase001 cx2Store cx2Req 0).2.1.users,
        ∃ x ∈ u.courses, x.transactionId = "TX9" ∧ x.accessExpiry = none := by decide

/-- C4 (amended): in the server and p002 variants every ledger entry
present after a purchase is either an entry the same user already had
or the newly appended entry with `accessExpiry = now + 365 days`
(first two conjuncts — so the append sets it exactly once, at purchase
time); and no subsequent operation changes any entry's `accessExpiry`:
the two activation-timer effects, verify-payment and review submission
all preserve the full per-user `accessExpiry` column (`ledgerExpiries`).
The access evaluators are pure reads and touch no store at all.  The
p001 variant appends its entry with no `accessExpiry` (see the
counterexample). -/
theorem C4_access_expiry_invariant (s : Store) (r : ServerReq) (r2 : AuthReq)
    (now : Nat) (production : Bool) (pw : String) (tm : Timer)
    (caller uid : Nat) (txnId cid : String) (rating : Int) (rv : String) :
    (∀ u' ∈ (purchaseServer s r now production pw).2.1.users, ∀ x ∈ u'.courses,
        (∃ u ∈ s.users, u.uid = u'.uid ∧ x ∈ u.courses) ∨
          x.accessExpiry = some (now + yearMs))
    ∧ (∀ u' ∈ (purchase002 s r2 now).2.1.users, ∀ x ∈ u'.courses,
        (∃ u ∈ s.users, u.uid = u'.uid ∧ x ∈ u.courses) ∨
          x.accessExpiry = some (now + yearMs))
    ∧ ledgerExpiries (fireTimerServer s tm) = ledgerExpiries s
    ∧ ledgerExpiries (fireTimerP s tm) = ledgerExpiries s
    ∧ ledgerExpiries (verifyPayment s caller txnId).2 = ledgerExpiries s
    ∧ ledgerExpiries (submitReview s uid cid rating rv now).2 = ledgerExpiries s := by
  refine ⟨purchaseServer_new_entries s r now production pw,
          purchase002_new_entries s r2 now, ?_, ?_, ?_, ?_⟩
  · unfold fireTimerServer
    rw [ledgerExpiries_incStudents, ledgerExpiries_setEntryActive,
        ledgerExpiries_setTxnStatus]
  · unfold fireTimerP
    rw [ledgerExpiries_setEntryActive, ledgerExpiries_setTxnStatus]
  · unfold verifyPayment
    cases h : s.transactions.find? (fun t => t.transactionId == txnId) with
    | none => rfl
    | some txn =>
      dsimp only
      rw [ledgerExpiries_setEntryActive, ledgerExpiries_setTxnStatus]
  · unfold submitReview
    dsimp only
    by_cases h : (checkCourseAccess s uid cid now).hasAccess = true
    · rw [if_pos h]
      cases s.users.find? (fun x => x.uid == uid) <;> rfl
    · rw [if_neg h]

/-- C4 witness: the p002-purchase conjunct applied to the post-purchase
user document — the appended entry carries `accessExpiry = 0 + 365
days`, so the right disjunct holds. -/
theorem C4_access_expiry_invariant_witness :
    (∃ u ∈ cx2Store.users, u.uid = cx4User.uid ∧ cx4Entry ∈ u.courses) ∨
      cx4Entry.accessExpiry = some (0 + yearMs) :=
  (C4_access_expiry_invariant cx2Store cxSrvReq cx2Req 0 false "rnd"
      { fireAt := 0, uid := 0, txnId := "", tid := 0, courseId := "" }
      0 0 "" "" 0 "").2.1 cx4User (by decide) cx4Entry (by decide)

/-- C5 witness: Alice purchases the sample course with `amount`
omitted; the transaction appended by the server variant records the
discounted price 1500. -/
theorem C5_amount_default_witness :
    ∃ txn, (purchaseServer cx2Store cxSrvReq 0 false "rnd").2.1.transactions =
        cx2Store.transactions ++ [txn] ∧ txn.amount = some 1500 := by
  obtain ⟨hresp, txn, h1, h2, h3, h4⟩ :=
    C5_amount_default cx2Store cxSrvReq 0 false "rnd" cxCourse (by decide) (by decide)
      (by decide) rfl
  exact ⟨txn, h1, h3 1500 rfl (by decide)⟩
